import Mathlib

/-!
Shallow embedding of the build-configuration script `pyodbc_setup.py`
(version resolution, build-directory lookup, and command-line flag
consumption), together with theorems settling the specification claims.

Modelling conventions:
* Machine strings are Lean `String`s (a structure over `List Char`); the
  ASCII fragment of the Python character classes `\d`, `\s` and of
  `str.upper` is modelled, which covers every string the script handles.
* The two external process invocations of the version-control tier are
  modelled as an explicit environment `GitEnv` holding the exit status and
  the (newline-stripped) captured output of each command, exactly the data
  `getoutput` hands back to `_get_version_git`.
* The packaging-manifest tier's filesystem access is modelled as an
  `Option (List String)`: `none` when the `PKG-INFO` file does not exist,
  otherwise the list of its lines (without trailing newline characters,
  which no regular expression of the script can observe).
-/

/-- Sentinel build number for official releases (`OFFICIAL_BUILD = 9999`). -/
def OFFICIAL_BUILD : Nat := 9999

/-- ASCII decimal digit, the fragment of Python's regex class `\d` the script meets. -/
def isCDigit (c : Char) : Bool := 48 ≤ c.toNat && c.toNat ≤ 57

/-- Character class `[0-9a-z]` from the tag-describe pattern in `_get_version_git`. -/
def isHashChar (c : Char) : Bool :=
  (48 ≤ c.toNat && c.toNat ≤ 57) || (97 ≤ c.toNat && c.toNat ≤ 122)

/-- ASCII whitespace, the fragment of Python's `\s` / `str.strip` the script meets. -/
def isPySpace (c : Char) : Bool :=
  c = ' ' || c = '\t' || c = '\n' || c = '\r' || c = '\x0b' || c = '\x0c'

/-- Value of a nonempty decimal digit string, as Python's `int` computes it. -/
def natOfDigits (ds : List Char) : Nat :=
  ds.foldl (fun a c => 10 * a + (c.toNat - 48)) 0

/-- Drop an expected literal from the front of a character list; `none` when
the input does not start with the literal. -/
def dropLit : List Char → List Char → Option (List Char)
  | [], cs => some cs
  | _ :: _, [] => none
  | l :: ls, c :: cs => if c = l then dropLit ls cs else none

/-- Decimal rendering of a natural number, as Python's `str`/`%s`/`%d` produce it. -/
def pyNatRepr (n : Nat) : String := Nat.repr n

/-- Zero-padding to width 2, Python's `%02d` on a non-negative integer. -/
def pad2 (n : Nat) : String := if n < 10 then "0" ++ pyNatRepr n else pyNatRepr n

/-! ## Packaging-manifest tier (`_get_version_pkginfo`)

The source compiles `r'^Version: \s+ (\d+)\.(\d+)\.(\d+) (?: -beta(\d+))?'`
with `re.VERBOSE`, so the literal spaces of the pattern are ignored and the
effective pattern is `^Version:\s+(\d+)\.(\d+)\.(\d+)(?:-beta(\d+))?`,
searched in each line (the `^` anchors the search at the start of the line).
Every quantified atom here is greedy over a character class disjoint from
what follows it, so the match is computed by a deterministic scan. -/

/-- The four capture groups of the manifest `Version:` pattern. -/
structure PkgGroups where
  g1 : List Char
  g2 : List Char
  g3 : List Char
  g4 : Option (List Char)
deriving DecidableEq, Repr

/-- Match of the effective manifest pattern
`^Version:\s+(\d+)\.(\d+)\.(\d+)(?:-beta(\d+))?` against one line. -/
def pkgLineMatch (line : String) : Option PkgGroups :=
  match dropLit ("Version:".data) line.data with
  | none => none
  | some r0 =>
    if (r0.takeWhile isPySpace).isEmpty then none
    else
      let r1 := r0.dropWhile isPySpace
      let d1 := r1.takeWhile isCDigit
      if d1.isEmpty then none
      else
        match r1.dropWhile isCDigit with
        | '.' :: r2 =>
          let d2 := r2.takeWhile isCDigit
          if d2.isEmpty then none
          else
            match r2.dropWhile isCDigit with
            | '.' :: r3 =>
              let d3 := r3.takeWhile isCDigit
              if d3.isEmpty then none
              else
                match dropLit ("-beta".data) (r3.dropWhile isCDigit) with
                | some r5 =>
                  let d4 := r5.takeWhile isCDigit
                  some ⟨d1, d2, d3, if d4.isEmpty then none else some d4⟩
                | none => some ⟨d1, d2, d3, none⟩
            | _ => none
        | _ => none

/-- First line of the manifest matching the `Version:` pattern, with its groups
(the `for line in open(filename)` loop of `_get_version_pkginfo`). -/
def pkgFindMatch : List String → Option (String × PkgGroups)
  | [] => none
  | l :: ls =>
    match pkgLineMatch l with
    | some g => some (l, g)
    | none => pkgFindMatch ls

/-- Remainder of a line after its first colon: `line.split(':', 1)[1]`.
Only evaluated on matched lines, which always contain a colon. -/
def afterColon (cs : List Char) : List Char := (cs.dropWhile (fun c => c ≠ ':')).tail

/-- Python `str.strip()` (ASCII whitespace). -/
def pyStrip (cs : List Char) : List Char :=
  ((cs.dropWhile isPySpace).reverse.dropWhile isPySpace).reverse

/-- The packaging-manifest tier. `pkg` is `none` when `PKG-INFO` does not
exist, otherwise the file's lines. Mirrors `_get_version_pkginfo`: the name
is the stripped remainder of the matched line after the colon, the numbers
are the three version groups and the beta group with `OFFICIAL_BUILD` as the
default when the `-betaN` suffix is absent. -/
def _get_version_pkginfo (pkg : Option (List String)) : Option (String × List Nat) :=
  match pkg with
  | none => none
  | some lines =>
    match pkgFindMatch lines with
    | none => none
    | some (line, g) =>
      some (String.mk (pyStrip (afterColon line.data)),
            [natOfDigits g.g1, natOfDigits g.g2, natOfDigits g.g3,
             (g.g4.map natOfDigits).getD OFFICIAL_BUILD])

/-! ## Version-control tier (`_get_version_git`)

The source compiles `r'(\d+).(\d+).(\d+) (?: -(\d+)-g([0-9a-z]+))?'` with
`re.VERBOSE` and applies it with `re.match`, so the effective pattern is
`(\d+).(\d+).(\d+)(?:-(\d+)-g([0-9a-z]+))?` anchored at the start of the
output.  The two dots are unescaped: each is the regex wildcard and matches
any character except a newline.  Because `(\d+)` can be followed by a
wildcard that itself accepts digits, the match needs genuine backtracking:
each of the first two digit groups tries its maximal run first and gives
back characters to the wildcard on failure, exactly the leftmost-greedy
strategy of Python's engine.  The trailing digit group and the optional
suffix need no backtracking (their neighbours are drawn from disjoint
character classes, and a failing optional group matches as empty). -/

/-- The five capture groups of the tag-describe pattern (the last two are
present together or absent together). -/
structure GitGroups where
  g1 : List Char
  g2 : List Char
  g3 : List Char
  g45 : Option (List Char × List Char)
deriving DecidableEq, Repr

/-- The optional suffix `(?:-(\d+)-g([0-9a-z]+))?` of the tag-describe
pattern; `none` when the suffix does not match (the group matches empty). -/
def parseSuffix (cs : List Char) : Option (List Char × List Char) :=
  match cs with
  | '-' :: r =>
    let ds := r.takeWhile isCDigit
    if ds.isEmpty then none
    else
      match r.dropWhile isCDigit with
      | '-' :: 'g' :: r2 =>
        let hs := r2.takeWhile isHashChar
        if hs.isEmpty then none else some (ds, hs)
      | _ => none
  | _ => none

/-- Third stage of the tag-describe pattern: `(\d+)(?:-(\d+)-g([0-9a-z]+))?`. -/
def stage3 (cs : List Char) : Option (List Char × Option (List Char × List Char)) :=
  let ds := cs.takeWhile isCDigit
  if ds.isEmpty then none else some (ds, parseSuffix (cs.dropWhile isCDigit))

/-- Second stage: `(\d+).` followed by the third stage, with greedy
backtracking over the length of the digit group (`k` counts the characters
the group currently claims from its maximal digit run). -/
def stage2go (cs : List Char) : Nat → Option (List Char × List Char × Option (List Char × List Char))
  | 0 => none
  | k + 1 =>
    match cs.drop (k + 1) with
    | [] => stage2go cs k
    | c :: r =>
      if c = '\n' then stage2go cs k
      else
        match stage3 r with
        | some (g3, g45) => some (cs.take (k + 1), g3, g45)
        | none => stage2go cs k

/-- Second stage entry point: the digit group starts from its maximal run. -/
def stage2 (cs : List Char) : Option (List Char × List Char × Option (List Char × List Char)) :=
  stage2go cs (cs.takeWhile isCDigit).length

/-- First stage: `(\d+).` followed by the second stage, with the same greedy
backtracking discipline. -/
def stage1go (cs : List Char) : Nat → Option GitGroups
  | 0 => none
  | k + 1 =>
    match cs.drop (k + 1) with
    | [] => stage1go cs k
    | c :: r =>
      if c = '\n' then stage1go cs k
      else
        match stage2 r with
        | some (g2, g3, g45) => some ⟨cs.take (k + 1), g2, g3, g45⟩
        | none => stage1go cs k

/-- Match of the effective tag-describe pattern
`(\d+).(\d+).(\d+)(?:-(\d+)-g([0-9a-z]+))?` at the start of the output. -/
def gitMatch (s : String) : Option GitGroups :=
  stage1go s.data (s.data.takeWhile isCDigit).length

/-- Exit status and captured output of the two version-control commands run
by `_get_version_git` through `getoutput` (output with trailing newlines
already stripped, as `getoutput` returns it; status `0` is success). -/
structure GitEnv where
  describeStatus : Nat
  describeOut : String
  branchStatus : Nat
  branchOut : String

/-- Branch-name step of `_get_version_git`: the source tests
`if n and branch_name != 'master'`, i.e. it prepends the branch prefix when
the exit status of the branch query is nonzero (truthy) and the captured
text differs from `master`. -/
def applyBranch (env : GitEnv) (name : String) : String :=
  if env.branchStatus ≠ 0 ∧ env.branchOut ≠ "master" then
    env.branchOut ++ "-" ++ name
  else name

/-- Name formatting of the official branch: `'%s.%s.%s-[IOPro]' % tuple(groups[:3])`
(the group strings themselves, not their integer values). -/
def officialName (g : GitGroups) : String :=
  String.mk g.g1 ++ "." ++ String.mk g.g2 ++ "." ++ String.mk g.g3 ++ "-[IOPro]"

/-- Name formatting of the beta branch:
`'%s.%s.%s-beta%02d-[IOPRO]' % tuple(numbers)` followed by `'-[%s]' % groups[-1]`,
where `numbers` already carries the incremented micro number. -/
def betaName (n1 n2 n3 n4 : Nat) (hs : List Char) : String :=
  pyNatRepr n1 ++ "." ++ pyNatRepr n2 ++ "." ++ pyNatRepr n3 ++ "-beta" ++ pad2 n4 ++
    "-[IOPRO]" ++ "-[" ++ String.mk hs ++ "]"

/-- The version-control tier, mirroring `_get_version_git`:
a nonzero describe status or a failed pattern match yields `none`; an absent
suffix or a commit-count group equal to `OFFICIAL_BUILD` takes the official
branch; otherwise the micro number is incremented (in the returned numbers
as well, via `numbers[-2] += 1`) and the beta name is formatted. -/
def _get_version_git (env : GitEnv) : Option (String × List Nat) :=
  if env.describeStatus ≠ 0 then none
  else
    match gitMatch env.describeOut with
    | none => none
    | some g =>
      match g.g45 with
      | none =>
        some (applyBranch env (officialName g),
              [natOfDigits g.g1, natOfDigits g.g2, natOfDigits g.g3, OFFICIAL_BUILD])
      | some (ds, hs) =>
        if natOfDigits ds = OFFICIAL_BUILD then
          some (applyBranch env (officialName g),
                [natOfDigits g.g1, natOfDigits g.g2, natOfDigits g.g3, natOfDigits ds])
        else
          some (applyBranch env
                  (betaName (natOfDigits g.g1) (natOfDigits g.g2)
                    (natOfDigits g.g3 + 1) (natOfDigits ds) hs),
                [natOfDigits g.g1, natOfDigits g.g2, natOfDigits g.g3 + 1, natOfDigits ds])

/-- The three-tier resolver `get_version`.  Both tiers return either no
result or a result whose number list has exactly four entries (never an
empty list), so the source's `if not numbers` falls through exactly when the
tier produced no match. -/
def get_version (pkg : Option (List String)) (env : GitEnv) : String × List Nat :=
  match _get_version_pkginfo pkg with
  | some (name, numbers) => (name, numbers)
  | none =>
    match _get_version_git env with
    | some (name, numbers) => (name, numbers)
    | none => ("3.0.0-unsupported", [3, 0, 0, 0])

/-! Sanity checks of the embedding on the concrete outputs exercised by the
source's own documentation. -/

example : pkgLineMatch "Version: 2.1.4" = some ⟨['2'], ['1'], ['4'], none⟩ := by decide
example : pkgLineMatch "Version: 2.1.4-beta3" = some ⟨['2'], ['1'], ['4'], some ['3']⟩ := by decide
example : pkgLineMatch "Version: abc" = none := by decide
example : pkgLineMatch "Version:2.1.4" = none := by decide
example : gitMatch "2.1.4" = some ⟨['2'], ['1'], ['4'], none⟩ := by decide
example : gitMatch "2.1.4-7-gabc1234" =
    some ⟨['2'], ['1'], ['4'], some (['7'], ['a','b','c','1','2','3','4'])⟩ := by decide
example : gitMatch "2a1b4" = some ⟨['2'], ['1'], ['4'], none⟩ := by decide
example : gitMatch "2114" = none := by decide
example : gitMatch "21145" = some ⟨['2'], ['1'], ['5'], none⟩ := by decide
example : _get_version_git ⟨0, "2.1.4-7-gabc1234", 0, "master"⟩ =
    some ("2.1.5-beta07-[IOPRO]-[abc1234]", [2, 1, 5, 7]) := by decide
example : _get_version_git ⟨0, "2.1.4", 0, "feature-x"⟩ =
    some ("2.1.4-[IOPro]", [2, 1, 4, 9999]) := by decide
example : get_version (some ["Version: 2.1.4-beta3"]) ⟨1, "", 1, ""⟩ =
    ("2.1.4-beta3", [2, 1, 4, 3]) := by decide
example : get_version none ⟨1, "", 1, ""⟩ = ("3.0.0-unsupported", [3, 0, 0, 0]) := by decide

/-! ## Specification-side patterns (for refinement comparison)

The specification states the two patterns differently from what the source
compiles; the following definitions follow the specification's words so that
the divergence can be exhibited.  In both patterns the optional tail group
can always match as empty and nothing anchors the end of the string, so
matchability is equivalent to matchability of the mandatory prefix. -/

/-- Follows the spec's words: matchability of
`^(\d+)\.(\d+)\.(\d+)(?:-(\d+)-g([0-9a-f]+))?` (literal dots) against the
tag-describe output. -/
def specGitDescribeMatches (s : String) : Bool :=
  let r1 := s.data
  if (r1.takeWhile isCDigit).isEmpty then false
  else
    match r1.dropWhile isCDigit with
    | '.' :: r2 =>
      if (r2.takeWhile isCDigit).isEmpty then false
      else
        match r2.dropWhile isCDigit with
        | '.' :: r3 => !(r3.takeWhile isCDigit).isEmpty
        | _ => false
    | _ => false

/-- Follows the spec's words: matchability of
`^Version:\s*(\d+)\.(\d+)\.(\d+)(?:-beta(\d+))?` (any amount of whitespace
after the colon, including none) against a manifest line. -/
def specPkgLineMatches (line : String) : Bool :=
  match dropLit ("Version:".data) line.data with
  | none => false
  | some r0 =>
    let r1 := r0.dropWhile isPySpace
    if (r1.takeWhile isCDigit).isEmpty then false
    else
      match r1.dropWhile isCDigit with
      | '.' :: r2 =>
        if (r2.takeWhile isCDigit).isEmpty then false
        else
          match r2.dropWhile isCDigit with
          | '.' :: r3 => !(r3.takeWhile isCDigit).isEmpty
          | _ => false
      | _ => false

/-! ## Path locator (`add_to_path`)

The filesystem walk is an external OS primitive (out of the specified
scope), so it is modelled by its yielded triples: `entries` is the top-down
preorder sequence of `(top, dirs, files)` triples that `os.walk` produces
for the build tree.  The source's line `dirs = [d for d in dirs ...]`
rebinds the loop-local name to a fresh list; `os.walk` prunes its descent
only when the yielded list object is mutated in place, so the rebinding has
no effect on the sequence of yielded triples — the filtered list is computed
and then never read, which the embedding mirrors with an unused binding. -/

/-- One triple yielded by the walk of the build tree: the directory's path
(as segments from the root), its subdirectory names, and its file names. -/
structure WalkEntry where
  top : List String
  dirs : List String
  files : List String

/-- Python `str.endswith`. -/
def strEndsWith (s post : String) : Bool := List.isSuffixOf post.data s.data

/-- Mirrors `add_to_path`: scan the walk, and at the first directory whose
files contain one of the candidate module names, prepend that directory to
the module search path; raise `SystemExit('Did not find pyodbcconf')` when
the walk is exhausted. -/
def add_to_path (library_names : List String) (dir_suffix : String)
    (entries : List WalkEntry) (path : List (List String)) :
    Except String (List (List String)) :=
  match entries with
  | [] => Except.error "Did not find pyodbcconf"
  | e :: rest =>
    let _dirs := e.dirs.filter (fun d => strEndsWith d dir_suffix)
    if library_names.any (fun n => e.files.contains n) then
      Except.ok (e.top :: path)
    else add_to_path library_names dir_suffix rest path

/-! ## Flag consumption in `get_compiler_settings`

The loop `for option in ['assert', 'trace', 'leak-check']` calls
`sys.argv.remove('--%s' % option)` — which deletes the first occurrence or
raises `ValueError` — and appends the preprocessor definition
`('PYODBC_%s' % option.replace('-', '_').upper(), 1)` exactly when the
removal succeeded. -/

/-- Definition name `'PYODBC_%s' % option.replace('-', '_').upper()`. -/
def defineName (opt : String) : String :=
  "PYODBC_" ++ String.mk (opt.data.map (fun c => (if c = '-' then '_' else c).toUpper))

/-- One `try: argv.remove(flag); defines.append(d) except ValueError: pass`
step on the state (argument list, emitted definitions). -/
def tryRemoveFlag (flag : String) (d : String × Nat)
    (st : List String × List (String × Nat)) : List String × List (String × Nat) :=
  if flag ∈ st.1 then (st.1.erase flag, st.2 ++ [d]) else st

/-- The flag-consumption loop of `get_compiler_settings` (lines 85-90 of the
source), acting on the global argument list and the accumulated
preprocessor definitions. -/
def get_compiler_settings_flags (argv : List String) (defines : List (String × Nat)) :
    List String × List (String × Nat) :=
  ["assert", "trace", "leak-check"].foldl
    (fun st opt => tryRemoveFlag ("--" ++ opt) (defineName opt, 1) st)
    (argv, defines)

example : defineName "leak-check" = "PYODBC_LEAK_CHECK" := by decide
example : (get_compiler_settings_flags ["--assert", "x", "--assert"] []) =
    (["x", "--assert"], [("PYODBC_ASSERT", 1)]) := by decide
example : specGitDescribeMatches "2a1b4" = false := by decide
example : specPkgLineMatches "Version:2.1.4" = true := by decide
example : add_to_path ["pyodbcconf.so"] "-2.7"
    [⟨["build"], ["temp"], []⟩, ⟨["build", "temp"], [], ["pyodbcconf.so"]⟩] [["site"]] =
    Except.ok [["build", "temp"], ["site"]] := by rfl

/-! ## Helper lemmas -/

theorem takeWhile_append_all {α : Type} (p : α → Bool) (l r : List α)
    (h : ∀ a ∈ l, p a = true) : (l ++ r).takeWhile p = l ++ r.takeWhile p := by
  induction l with
  | nil => simp
  | cons a t ih =>
    have ha : p a = true := h a (by simp)
    simp only [List.cons_append, List.takeWhile_cons_of_pos ha, List.cons.injEq, true_and]
    exact ih (fun b hb => h b (by simp [hb]))

theorem dropWhile_append_all {α : Type} (p : α → Bool) (l r : List α)
    (h : ∀ a ∈ l, p a = true) : (l ++ r).dropWhile p = r.dropWhile p := by
  induction l with
  | nil => simp
  | cons a t ih =>
    have ha : p a = true := h a (by simp)
    simp only [List.cons_append, List.dropWhile_cons_of_pos ha]
    exact ih (fun b hb => h b (by simp [hb]))

theorem takeWhile_all {α : Type} (p : α → Bool) (l : List α)
    (h : ∀ a ∈ l, p a = true) : l.takeWhile p = l := by
  have := takeWhile_append_all p l [] h
  simpa using this

theorem dropLit_eq_append (pre : List Char) :
    ∀ cs r, dropLit pre cs = some r → cs = pre ++ r := by
  induction pre with
  | nil => intro cs r h; simp [dropLit] at h; simp [h]
  | cons l ls ih =>
    intro cs r h
    cases cs with
    | nil => simp [dropLit] at h
    | cons c cs' =>
      simp only [dropLit] at h
      by_cases hc : c = l
      · rw [if_pos hc] at h
        subst hc
        simpa using ih cs' r h
      · rw [if_neg hc] at h
        exact absurd h (by simp)

theorem string_nil_append (s : String) : "" ++ s = s := by
  cases s
  rfl

/-! ## Parse lemmas for well-formed tag-describe outputs

On an output built from literal dots and disjoint character classes the
greedy engine succeeds on its first attempt, so the groups are the
syntactic components. -/

theorem stage3_wf (ds3 s : List Char) (h3 : ds3 ≠ [])
    (hd3 : ∀ c ∈ ds3, isCDigit c = true)
    (hs1 : s.takeWhile isCDigit = []) (hs2 : s.dropWhile isCDigit = s) :
    stage3 (ds3 ++ s) = some (ds3, parseSuffix s) := by
  have htw : (ds3 ++ s).takeWhile isCDigit = ds3 := by
    rw [takeWhile_append_all _ _ _ hd3, hs1, List.append_nil]
  have hdw : (ds3 ++ s).dropWhile isCDigit = s := by
    rw [dropWhile_append_all _ _ _ hd3, hs2]
  simp only [stage3, htw, hdw]
  rw [if_neg (by simpa using h3)]

theorem parseSuffix_wf (ds4 hs : List Char) (h4 : ds4 ≠ [])
    (hd4 : ∀ c ∈ ds4, isCDigit c = true) (hh : hs ≠ [])
    (hdh : ∀ c ∈ hs, isHashChar c = true) :
    parseSuffix ('-' :: (ds4 ++ '-' :: 'g' :: hs)) = some (ds4, hs) := by
  have htw : (ds4 ++ '-' :: 'g' :: hs).takeWhile isCDigit = ds4 := by
    rw [takeWhile_append_all _ _ _ hd4, List.takeWhile_cons_of_neg (by decide),
        List.append_nil]
  have hdw : (ds4 ++ '-' :: 'g' :: hs).dropWhile isCDigit = '-' :: 'g' :: hs := by
    rw [dropWhile_append_all _ _ _ hd4, List.dropWhile_cons_of_neg (by decide)]
  simp only [parseSuffix, htw, hdw]
  rw [if_neg (by simpa using h4)]
  rw [takeWhile_all _ _ hdh]
  rw [if_neg (by simpa using hh)]

theorem stage2_wf (ds2 r : List Char) (g3 : List Char)
    (g45 : Option (List Char × List Char)) (h2 : ds2 ≠ [])
    (hd2 : ∀ c ∈ ds2, isCDigit c = true) (h3 : stage3 r = some (g3, g45)) :
    stage2 (ds2 ++ '.' :: r) = some (ds2, g3, g45) := by
  obtain ⟨d, ds', rfl⟩ : ∃ d ds', ds2 = d :: ds' := by
    cases ds2 with
    | nil => exact absurd rfl h2
    | cons d t => exact ⟨d, t, rfl⟩
  have htw : ((d :: ds') ++ '.' :: r).takeWhile isCDigit = d :: ds' := by
    rw [takeWhile_append_all _ _ _ hd2, List.takeWhile_cons_of_neg (by decide),
        List.append_nil]
  have hdrop : ((d :: ds') ++ '.' :: r).drop (ds'.length + 1) = '.' :: r := by
    have := List.drop_left (d :: ds') ('.' :: r)
    simpa using this
  have htake : ((d :: ds') ++ '.' :: r).take (ds'.length + 1) = d :: ds' := by
    have := List.take_left (d :: ds') ('.' :: r)
    simpa using this
  unfold stage2
  rw [htw, List.length_cons]
  unfold stage2go
  rw [hdrop]
  simp only [h3, htake]
  rw [if_neg (by decide)]

theorem gitMatch_wf (ds1 r : List Char) (g2 g3 : List Char)
    (g45 : Option (List Char × List Char)) (h1 : ds1 ≠ [])
    (hd1 : ∀ c ∈ ds1, isCDigit c = true) (h2 : stage2 r = some (g2, g3, g45)) :
    gitMatch (String.mk (ds1 ++ '.' :: r)) = some ⟨ds1, g2, g3, g45⟩ := by
  obtain ⟨d, ds', rfl⟩ : ∃ d ds', ds1 = d :: ds' := by
    cases ds1 with
    | nil => exact absurd rfl h1
    | cons d t => exact ⟨d, t, rfl⟩
  have htw : ((d :: ds') ++ '.' :: r).takeWhile isCDigit = d :: ds' := by
    rw [takeWhile_append_all _ _ _ hd1, List.takeWhile_cons_of_neg (by decide),
        List.append_nil]
  have hdrop : ((d :: ds') ++ '.' :: r).drop (ds'.length + 1) = '.' :: r := by
    have := List.drop_left (d :: ds') ('.' :: r)
    simpa using this
  have htake : ((d :: ds') ++ '.' :: r).take (ds'.length + 1) = d :: ds' := by
    have := List.take_left (d :: ds') ('.' :: r)
    simpa using this
  show stage1go _ _ = _
  rw [htw, List.length_cons]
  unfold stage1go
  rw [hdrop]
  simp only [h2, htake]
  rw [if_neg (by decide)]

/-- Parse of a fully well-formed beta describe output
`D1.D2.D3-D4-gH` (literal dots, nonempty digit groups, nonempty hash). -/
theorem gitMatch_beta (ds1 ds2 ds3 ds4 hs : List Char)
    (h1 : ds1 ≠ []) (hd1 : ∀ c ∈ ds1, isCDigit c = true)
    (h2 : ds2 ≠ []) (hd2 : ∀ c ∈ ds2, isCDigit c = true)
    (h3 : ds3 ≠ []) (hd3 : ∀ c ∈ ds3, isCDigit c = true)
    (h4 : ds4 ≠ []) (hd4 : ∀ c ∈ ds4, isCDigit c = true)
    (hh : hs ≠ []) (hdh : ∀ c ∈ hs, isHashChar c = true) :
    gitMatch (String.mk
      (ds1 ++ '.' :: (ds2 ++ '.' :: (ds3 ++ '-' :: (ds4 ++ '-' :: 'g' :: hs))))) =
      some ⟨ds1, ds2, ds3, some (ds4, hs)⟩ := by
  have hst3 : stage3 (ds3 ++ '-' :: (ds4 ++ '-' :: 'g' :: hs)) =
      some (ds3, some (ds4, hs)) := by
    rw [stage3_wf ds3 _ h3 hd3 (List.takeWhile_cons_of_neg (by decide))
        (List.dropWhile_cons_of_neg (by decide))]
    rw [parseSuffix_wf ds4 hs h4 hd4 hh hdh]
  have hst2 : stage2 (ds2 ++ '.' :: (ds3 ++ '-' :: (ds4 ++ '-' :: 'g' :: hs))) =
      some (ds2, ds3, some (ds4, hs)) := stage2_wf ds2 _ _ _ h2 hd2 hst3
  exact gitMatch_wf ds1 _ _ _ _ h1 hd1 hst2

/-- Parse of a describe output sitting exactly on a tag: `D1.D2.D3`. -/
theorem gitMatch_official (ds1 ds2 ds3 : List Char)
    (h1 : ds1 ≠ []) (hd1 : ∀ c ∈ ds1, isCDigit c = true)
    (h2 : ds2 ≠ []) (hd2 : ∀ c ∈ ds2, isCDigit c = true)
    (h3 : ds3 ≠ []) (hd3 : ∀ c ∈ ds3, isCDigit c = true) :
    gitMatch (String.mk (ds1 ++ '.' :: (ds2 ++ '.' :: ds3))) =
      some ⟨ds1, ds2, ds3, none⟩ := by
  have hst3 : stage3 (ds3 ++ ([] : List Char)) = some (ds3, none) := by
    rw [stage3_wf ds3 [] h3 hd3 rfl rfl]
    rfl
  rw [List.append_nil] at hst3
  have hst2 : stage2 (ds2 ++ '.' :: ds3) = some (ds2, ds3, none) := by
    have := stage2_wf ds2 ds3 ds3 none h2 hd2 hst3
    exact this
  exact gitMatch_wf ds1 _ _ _ _ h1 hd1 hst2

/-- The branch-prefix step only ever prepends something to the already
formatted name. -/
theorem applyBranch_extends (env : GitEnv) (name : String) :
    ∃ pre, applyBranch env name = pre ++ name := by
  unfold applyBranch
  by_cases h : env.branchStatus ≠ 0 ∧ env.branchOut ≠ "master"
  · exact ⟨env.branchOut ++ "-", by rw [if_pos h]⟩
  · exact ⟨"", by rw [if_neg h, string_nil_append]⟩

/-- C1 (counterexample): for tag-describe output `2.1.4-7-gabc1234` the
resolver returns `numbers = [2, 1, 5, 7]` — the micro number is incremented
in the returned tuple as well (`numbers[-2] += 1`) — so the numbers are not
the unincremented `[2, 1, 4, 7]` the claim states. -/
theorem beta_numbers_not_unincremented :
    get_version none ⟨0, "2.1.4-7-gabc1234", 0, "feature-x"⟩ =
      ("2.1.5-beta07-[IOPRO]-[abc1234]", [2, 1, 5, 7]) ∧
    (get_version none ⟨0, "2.1.4-7-gabc1234", 0, "feature-x"⟩).2 ≠ [2, 1, 4, 7] := by
  decide

/-- C1 (amended): for every tag-describe output `MAJOR.MINOR.MICRO-N-gHASH`
with N > 0 and N different from the sentinel 9999, resolve() returns
numbers equal to `[MAJOR, MINOR, MICRO+1, N]` (the micro number is
incremented in the tuple too; the build is the commit count), and the
returned name extends `"MAJOR.MINOR.(MICRO+1)-betaNN-[IOPRO]-[HASH]"` with
the beta id NN zero-padded to 2 digits. -/
theorem beta_describe_resolution (ds1 ds2 ds3 ds4 hs : List Char)
    (bst : Nat) (bout : String)
    (h1 : ds1 ≠ []) (hd1 : ∀ c ∈ ds1, isCDigit c = true)
    (h2 : ds2 ≠ []) (hd2 : ∀ c ∈ ds2, isCDigit c = true)
    (h3 : ds3 ≠ []) (hd3 : ∀ c ∈ ds3, isCDigit c = true)
    (h4 : ds4 ≠ []) (hd4 : ∀ c ∈ ds4, isCDigit c = true)
    (hh : hs ≠ []) (hdh : ∀ c ∈ hs, isHashChar c = true)
    (hpos : 0 < natOfDigits ds4) (hnot : natOfDigits ds4 ≠ OFFICIAL_BUILD) :
    ∃ pre,
      get_version none
        ⟨0, String.mk (ds1 ++ '.' :: (ds2 ++ '.' :: (ds3 ++ '-' :: (ds4 ++ '-' :: 'g' :: hs)))),
         bst, bout⟩ =
      (pre ++ (pyNatRepr (natOfDigits ds1) ++ "." ++ pyNatRepr (natOfDigits ds2) ++ "." ++
         pyNatRepr (natOfDigits ds3 + 1) ++ "-beta" ++ pad2 (natOfDigits ds4) ++
         "-[IOPRO]" ++ "-[" ++ String.mk hs ++ "]"),
       [natOfDigits ds1, natOfDigits ds2, natOfDigits ds3 + 1, natOfDigits ds4]) := by
  have hm := gitMatch_beta ds1 ds2 ds3 ds4 hs h1 hd1 h2 hd2 h3 hd3 h4 hd4 hh hdh
  obtain ⟨pre, hpre⟩ := applyBranch_extends
    ⟨0, String.mk (ds1 ++ '.' :: (ds2 ++ '.' :: (ds3 ++ '-' :: (ds4 ++ '-' :: 'g' :: hs)))),
     bst, bout⟩
    (betaName (natOfDigits ds1) (natOfDigits ds2) (natOfDigits ds3 + 1) (natOfDigits ds4) hs)
  refine ⟨pre, ?_⟩
  have hgit : _get_version_git
      ⟨0, String.mk (ds1 ++ '.' :: (ds2 ++ '.' :: (ds3 ++ '-' :: (ds4 ++ '-' :: 'g' :: hs)))),
       bst, bout⟩ =
      some (applyBranch
        ⟨0, String.mk (ds1 ++ '.' :: (ds2 ++ '.' :: (ds3 ++ '-' :: (ds4 ++ '-' :: 'g' :: hs)))),
         bst, bout⟩
        (betaName (natOfDigits ds1) (natOfDigits ds2) (natOfDigits ds3 + 1) (natOfDigits ds4) hs),
        [natOfDigits ds1, natOfDigits ds2, natOfDigits ds3 + 1, natOfDigits ds4]) := by
    simp only [_get_version_git, hm]
    rw [if_neg (by simp)]
    rw [if_neg hnot]
  show get_version _ _ = _
  simp only [get_version, _get_version_pkginfo, hgit]
  rw [hpre]
  rfl

/-- C1 (witness): the amended theorem at the spec's own example
`2.1.4-7-gabc1234`. -/
theorem beta_describe_resolution_witness :
    ∃ pre, get_version none ⟨0, "2.1.4-7-gabc1234", 0, "feature-x"⟩ =
      (pre ++ "2.1.5-beta07-[IOPRO]-[abc1234]", [2, 1, 5, 7]) := by
  obtain ⟨pre, h⟩ := beta_describe_resolution ['2'] ['1'] ['4'] ['7']
    ['a', 'b', 'c', '1', '2', '3', '4'] 0 "feature-x"
    (by decide) (by decide) (by decide) (by decide) (by decide) (by decide)
    (by decide) (by decide) (by decide) (by decide) (by decide) (by decide)
  rw [show String.mk (['2'] ++ '.' :: (['1'] ++ '.' ::
      (['4'] ++ '-' :: (['7'] ++ '-' :: 'g' :: ['a', 'b', 'c', '1', '2', '3', '4'])))) =
      "2.1.4-7-gabc1234" from by decide] at h
  rw [show pyNatRepr (natOfDigits ['2']) ++ "." ++ pyNatRepr (natOfDigits ['1']) ++ "." ++
      pyNatRepr (natOfDigits ['4'] + 1) ++ "-beta" ++ pad2 (natOfDigits ['7']) ++
      "-[IOPRO]" ++ "-[" ++ String.mk ['a', 'b', 'c', '1', '2', '3', '4'] ++ "]" =
      "2.1.5-beta07-[IOPRO]-[abc1234]" from by decide] at h
  rw [show [natOfDigits ['2'], natOfDigits ['1'], natOfDigits ['4'] + 1, natOfDigits ['7']] =
      [2, 1, 5, 7] from by decide] at h
  exact ⟨pre, h⟩

/-- C2: the source tests `if n and branch_name != 'master'` on the branch
query's exit status `n`, so the branch prefix is added exactly when the
query FAILS (nonzero status) with output different from `master` — the
opposite of the claim: a successful query on branch `feature-x` yields no
prefix, while a failed query with captured text `oops` yields the prefix
`oops-`. -/
theorem branch_query_status_inverted :
    get_version none ⟨0, "2.1.4", 0, "feature-x"⟩ = ("2.1.4-[IOPro]", [2, 1, 4, 9999]) ∧
    get_version none ⟨0, "2.1.4", 1, "oops"⟩ = ("oops-2.1.4-[IOPro]", [2, 1, 4, 9999]) ∧
    get_version none ⟨0, "2.1.4", 1, ""⟩ = ("-2.1.4-[IOPro]", [2, 1, 4, 9999]) := by
  decide

/-- C4 (counterexample): tag-describe output `2.1.4-0-gabc1234` has an
explicit zero commit distance, yet the build number is 0 (the group string
`'0'` is truthy, so `int(x or OFFICIAL_BUILD)` yields 0) and the beta path
runs — the build is not the sentinel the claim states for zero distance. -/
theorem zero_commit_suffix_beta_path :
    get_version none ⟨0, "2.1.4-0-gabc1234", 0, "master"⟩ =
      ("2.1.5-beta00-[IOPRO]-[abc1234]", [2, 1, 5, 0]) ∧
    (get_version none ⟨0, "2.1.4-0-gabc1234", 0, "master"⟩).2.getD 3 0 ≠ OFFICIAL_BUILD := by
  decide

/-- C4 (amended): when the `-COMMITS-gHASH` suffix is absent from the
tag-describe output, the build number is the sentinel: for output
`MAJOR.MINOR.MICRO` resolve() returns `[MAJOR, MINOR, MICRO, 9999]` and a
name extending `"MAJOR.MINOR.MICRO-[IOPro]"` (an explicit `-0-gHASH` suffix
instead takes the beta path with build 0). -/
theorem official_describe_resolution (ds1 ds2 ds3 : List Char)
    (bst : Nat) (bout : String)
    (h1 : ds1 ≠ []) (hd1 : ∀ c ∈ ds1, isCDigit c = true)
    (h2 : ds2 ≠ []) (hd2 : ∀ c ∈ ds2, isCDigit c = true)
    (h3 : ds3 ≠ []) (hd3 : ∀ c ∈ ds3, isCDigit c = true) :
    ∃ pre,
      get_version none ⟨0, String.mk (ds1 ++ '.' :: (ds2 ++ '.' :: ds3)), bst, bout⟩ =
      (pre ++ (String.mk ds1 ++ "." ++ String.mk ds2 ++ "." ++ String.mk ds3 ++ "-[IOPro]"),
       [natOfDigits ds1, natOfDigits ds2, natOfDigits ds3, OFFICIAL_BUILD]) := by
  have hm := gitMatch_official ds1 ds2 ds3 h1 hd1 h2 hd2 h3 hd3
  obtain ⟨pre, hpre⟩ := applyBranch_extends
    ⟨0, String.mk (ds1 ++ '.' :: (ds2 ++ '.' :: ds3)), bst, bout⟩
    (officialName ⟨ds1, ds2, ds3, none⟩)
  refine ⟨pre, ?_⟩
  have hgit : _get_version_git
      ⟨0, String.mk (ds1 ++ '.' :: (ds2 ++ '.' :: ds3)), bst, bout⟩ =
      some (applyBranch ⟨0, String.mk (ds1 ++ '.' :: (ds2 ++ '.' :: ds3)), bst, bout⟩
        (officialName ⟨ds1, ds2, ds3, none⟩),
        [natOfDigits ds1, natOfDigits ds2, natOfDigits ds3, OFFICIAL_BUILD]) := by
    simp only [_get_version_git, hm]
    rw [if_neg (by simp)]
  show get_version _ _ = _
  simp only [get_version, _get_version_pkginfo, hgit]
  rw [hpre]
  rfl

/-- C4 (witness): the amended theorem at the spec's own example `2.1.4`. -/
theorem official_describe_resolution_witness :
    ∃ pre, get_version none ⟨0, "2.1.4", 0, "master"⟩ =
      (pre ++ "2.1.4-[IOPro]", [2, 1, 4, 9999]) := by
  obtain ⟨pre, h⟩ := official_describe_resolution ['2'] ['1'] ['4'] 0 "master"
    (by decide) (by decide) (by decide) (by decide) (by decide) (by decide)
  rw [show String.mk (['2'] ++ '.' :: (['1'] ++ '.' :: ['4'])) = "2.1.4" from by decide] at h
  rw [show String.mk ['2'] ++ "." ++ String.mk ['1'] ++ "." ++ String.mk ['4'] ++ "-[IOPro]" =
      "2.1.4-[IOPro]" from by decide] at h
  rw [show [natOfDigits ['2'], natOfDigits ['1'], natOfDigits ['4'], OFFICIAL_BUILD] =
      [2, 1, 4, 9999] from by decide] at h
  exact ⟨pre, h⟩

/-- A manifest in which no line matches produces no match from the scan loop. -/
theorem pkgFindMatch_none (lines : List String)
    (h : ∀ l ∈ lines, pkgLineMatch l = none) : pkgFindMatch lines = none := by
  induction lines with
  | nil => rfl
  | cons l ls ih =>
    have hl : pkgLineMatch l = none := h l (by simp)
    simp only [pkgFindMatch, hl]
    exact ih (fun x hx => h x (by simp [hx]))

/-- C5 (counterexample): the output `2a1b4` does not match the pattern the
claim states (literal dots), yet the resolver does not treat it as no-tag:
the unescaped dots of the compiled pattern match `a` and `b`, and the
resolver produces the version `2.1.4-[IOPro]` instead of falling through to
the default tier. -/
theorem wildcard_dot_accepts_nonliteral :
    specGitDescribeMatches "2a1b4" = false ∧
    get_version none ⟨0, "2a1b4", 0, "master"⟩ = ("2.1.4-[IOPro]", [2, 1, 4, 9999]) ∧
    get_version none ⟨0, "2a1b4", 0, "master"⟩ ≠ ("3.0.0-unsupported", [3, 0, 0, 0]) := by
  decide

/-- C5 (amended): pattern-match failure is uniformly treated as absence — a
manifest none of whose lines match the compiled Version pattern resolves
exactly as if the manifest were absent (falling through to the
version-control tier), and tag-describe output that does not match the
COMPILED pattern `(\d+).(\d+).(\d+)(?:-(\d+)-g([0-9a-z]+))?` (wildcard
dots, hash class `[0-9a-z]`) is treated as no-tag, falling through to the
default tier. -/
theorem pattern_failure_falls_through :
    (∀ (lines : List String) (env : GitEnv),
        (∀ l ∈ lines, pkgLineMatch l = none) →
        get_version (some lines) env = get_version none env) ∧
    (∀ (s : String) (bst : Nat) (bout : String),
        gitMatch s = none →
        get_version none ⟨0, s, bst, bout⟩ = ("3.0.0-unsupported", [3, 0, 0, 0])) := by
  constructor
  · intro lines env h
    have hf := pkgFindMatch_none lines h
    simp [get_version, _get_version_pkginfo, hf]
  · intro s bst bout h
    simp [get_version, _get_version_pkginfo, _get_version_git, h]

/-- C5 (witness): the amended theorem at the spec's example `Version: abc`
and at a non-matching describe output. -/
theorem pattern_failure_falls_through_witness :
    get_version (some ["Version: abc"]) ⟨1, "", 1, ""⟩ = get_version none ⟨1, "", 1, ""⟩ ∧
    get_version none ⟨0, "junk", 0, "master"⟩ = ("3.0.0-unsupported", [3, 0, 0, 0]) :=
  ⟨pattern_failure_falls_through.1 ["Version: abc"] ⟨1, "", 1, ""⟩ (by decide),
   pattern_failure_falls_through.2 "junk" 0 "master" (by decide)⟩

/-- C6: when a manifest line matches, the resolver's output is the manifest
tier's output, and it is independent of the entire version-control
environment — the version-control commands are never consulted. -/
theorem manifest_precedence (lines : List String) (env env' : GitEnv)
    (line : String) (g : PkgGroups) (h : pkgFindMatch lines = some (line, g)) :
    get_version (some lines) env = get_version (some lines) env' ∧
    some (get_version (some lines) env) = _get_version_pkginfo (some lines) := by
  simp [get_version, _get_version_pkginfo, h]

/-- C6 (witness): a matching manifest yields the same result under a
successful and under a failing version-control environment. -/
theorem manifest_precedence_witness :
    get_version (some ["Version: 2.1.4"]) ⟨0, "9.9.9-1-gffff", 0, "dev"⟩ =
      get_version (some ["Version: 2.1.4"]) ⟨1, "", 1, ""⟩ ∧
    some (get_version (some ["Version: 2.1.4"]) ⟨0, "9.9.9-1-gffff", 0, "dev"⟩) =
      _get_version_pkginfo (some ["Version: 2.1.4"]) :=
  manifest_precedence ["Version: 2.1.4"] ⟨0, "9.9.9-1-gffff", 0, "dev"⟩ ⟨1, "", 1, ""⟩
    "Version: 2.1.4" ⟨['2'], ['1'], ['4'], none⟩ (by decide)

/-- C7 (counterexample): the line `Version:2.1.4` (no whitespace after the
colon) matches the pattern the claim states (`\s*`), but the compiled
pattern requires at least one whitespace character (`\s+`, the `re.VERBOSE`
flag removes the literal space), so the code produces no manifest result
and the resolver falls through. -/
theorem manifest_requires_whitespace :
    specPkgLineMatches "Version:2.1.4" = true ∧
    pkgLineMatch "Version:2.1.4" = none ∧
    get_version (some ["Version:2.1.4"]) ⟨1, "", 1, ""⟩ =
      ("3.0.0-unsupported", [3, 0, 0, 0]) := by
  decide

/-- C7 (amended): for every manifest whose first matching line exists under
the compiled pattern `^Version:\s+(\d+)\.(\d+)\.(\d+)(?:-beta(\d+))?` (at
least ONE whitespace character after the colon), resolve() returns the name
equal to the trimmed remainder of that line after the colon and numbers
`[major, minor, micro, beta]` with beta defaulting to the sentinel 9999
when the `-betaN` suffix is absent; moreover every matching line does start
with `Version:` followed by a whitespace character. -/
theorem manifest_match_result :
    (∀ (lines : List String) (env : GitEnv) (line : String) (g : PkgGroups),
        pkgFindMatch lines = some (line, g) →
        get_version (some lines) env =
          (String.mk (pyStrip (afterColon line.data)),
           [natOfDigits g.g1, natOfDigits g.g2, natOfDigits g.g3,
            (g.g4.map natOfDigits).getD OFFICIAL_BUILD])) ∧
    (∀ (line : String) (g : PkgGroups),
        pkgLineMatch line = some g →
        ∃ c r, line.data = ("Version:".data) ++ c :: r ∧ isPySpace c = true) ∧
    get_version (some ["Version: 2.1.4"]) ⟨1, "", 1, ""⟩ = ("2.1.4", [2, 1, 4, 9999]) ∧
    get_version (some ["Version: 2.1.4-beta3"]) ⟨1, "", 1, ""⟩ =
      ("2.1.4-beta3", [2, 1, 4, 3]) := by
  refine ⟨?_, ?_, by decide, by decide⟩
  · intro lines env line g h
    simp [get_version, _get_version_pkginfo, h]
  · intro line g h
    rcases hdl : dropLit ("Version:".data) line.data with _ | r0
    · rw [pkgLineMatch, hdl] at h
      exact absurd h (by simp)
    · have hcs := dropLit_eq_append _ _ _ hdl
      by_cases hsp : (r0.takeWhile isPySpace).isEmpty
      · rw [pkgLineMatch, hdl] at h
        simp [hsp] at h
      · cases r0 with
        | nil => simp at hsp
        | cons c r =>
          refine ⟨c, r, hcs, ?_⟩
          by_contra hc
          have hcf : isPySpace c = false := by
            revert hc
            cases isPySpace c <;> simp
          rw [List.takeWhile_cons_of_neg (by simp [hcf])] at hsp
          simp at hsp

/-- C7 (witness): the amended theorem at the manifest line
`Version: 2.1.4-beta3`. -/
theorem manifest_match_result_witness :
    get_version (some ["Version: 2.1.4-beta3"]) ⟨0, "9.9.9", 0, "dev"⟩ =
      (String.mk (pyStrip (afterColon ("Version: 2.1.4-beta3").data)),
       [natOfDigits ['2'], natOfDigits ['1'], natOfDigits ['4'],
        ((some ['3']).map natOfDigits).getD OFFICIAL_BUILD]) ∧
    (∃ c r, ("Version: 2.1.4-beta3").data = ("Version:".data) ++ c :: r ∧
      isPySpace c = true) :=
  ⟨manifest_match_result.1 ["Version: 2.1.4-beta3"] ⟨0, "9.9.9", 0, "dev"⟩
      "Version: 2.1.4-beta3" ⟨['2'], ['1'], ['4'], some ['3']⟩ (by decide),
   manifest_match_result.2.1 "Version: 2.1.4-beta3" ⟨['2'], ['1'], ['4'], some ['3']⟩
      (by decide)⟩

/-- C8: whenever both the manifest tier and the version-control tier
produce no result, the (total, hence never-raising) resolver returns
exactly `("3.0.0-unsupported", [3, 0, 0, 0])`. -/
theorem default_fallback (pkg : Option (List String)) (env : GitEnv)
    (h1 : _get_version_pkginfo pkg = none) (h2 : _get_version_git env = none) :
    get_version pkg env = ("3.0.0-unsupported", [3, 0, 0, 0]) := by
  simp [get_version, h1, h2]

/-- C8 (witness): the fallback at an absent manifest and a failing describe
command. -/
theorem default_fallback_witness :
    get_version none ⟨1, "", 1, ""⟩ = ("3.0.0-unsupported", [3, 0, 0, 0]) :=
  default_fallback none ⟨1, "", 1, ""⟩ rfl (by decide)

/-- When the manifest tier fails, the build number is the sentinel exactly
when the describe command succeeded, its output matched, and the
commit-count group is absent or itself reads 9999. -/
theorem git_build_case (pkg : Option (List String)) (env : GitEnv)
    (hpk : _get_version_pkginfo pkg = none) :
    ((get_version pkg env).2.getD 3 0 = OFFICIAL_BUILD ↔
      (env.describeStatus = 0 ∧ ∃ g, gitMatch env.describeOut = some g ∧
        (g.g45 = none ∨ ∃ ds hs, g.g45 = some (ds, hs) ∧
          natOfDigits ds = OFFICIAL_BUILD))) := by
  by_cases hst : env.describeStatus = 0
  · rcases hg : gitMatch env.describeOut with _ | g
    · simp [get_version, hpk, _get_version_git, hst, hg, OFFICIAL_BUILD]
    · rcases hg45 : g.g45 with _ | ⟨ds, hs⟩
      · simp [get_version, hpk, _get_version_git, hst, hg, hg45,
          List.getD_cons_succ, List.getD_cons_zero]
      · by_cases h99 : natOfDigits ds = OFFICIAL_BUILD
        · simp [get_version, hpk, _get_version_git, hst, hg, hg45, h99,
            List.getD_cons_succ, List.getD_cons_zero]
        · simp [get_version, hpk, _get_version_git, hst, hg, hg45, h99,
            List.getD_cons_succ, List.getD_cons_zero]
  · simp [get_version, hpk, _get_version_git, hst, OFFICIAL_BUILD]

/-- C3 (counterexample): the build number equals the sentinel 9999 without
the version being an official no-subsequent-commit release — a manifest
line carrying the explicit suffix `-beta9999`, and a describe output
carrying an explicit commit distance of 9999, both yield build 9999. -/
theorem beta9999_build_sentinel :
    get_version (some ["Version: 2.1.4-beta9999"]) ⟨1, "", 1, ""⟩ =
      ("2.1.4-beta9999", [2, 1, 4, 9999]) ∧
    pkgLineMatch "Version: 2.1.4-beta9999" =
      some ⟨['2'], ['1'], ['4'], some ['9', '9', '9', '9']⟩ ∧
    get_version none ⟨0, "2.1.4-9999-gabc", 0, "master"⟩ =
      ("2.1.4-[IOPro]", [2, 1, 4, 9999]) := by
  decide

/-- C3 (amended): the build number (fourth element of numbers) equals the
sentinel 9999 if and only if either the matched manifest line's beta group
is absent or itself reads 9999, or (the manifest tier failed and) the
matched describe output's commit-count group is absent or itself reads
9999.  An explicit zero commit distance yields build 0, and the default
fallback yields build 0, neither of which is the sentinel. -/
theorem build_sentinel_characterization (pkg : Option (List String)) (env : GitEnv) :
    (get_version pkg env).2.getD 3 0 = OFFICIAL_BUILD ↔
      ((∃ lines line g, pkg = some lines ∧ pkgFindMatch lines = some (line, g) ∧
          (g.g4 = none ∨ ∃ ds, g.g4 = some ds ∧ natOfDigits ds = OFFICIAL_BUILD)) ∨
       (_get_version_pkginfo pkg = none ∧ env.describeStatus = 0 ∧
        ∃ g, gitMatch env.describeOut = some g ∧
          (g.g45 = none ∨ ∃ ds hs, g.g45 = some (ds, hs) ∧
            natOfDigits ds = OFFICIAL_BUILD))) := by
  rcases pkg with _ | lines
  · rw [git_build_case none env rfl]
    simp [_get_version_pkginfo]
  · rcases hf : pkgFindMatch lines with _ | ⟨line, g⟩
    · have hpk : _get_version_pkginfo (some lines) = none := by
        simp [_get_version_pkginfo, hf]
      rw [git_build_case (some lines) env hpk]
      simp [hf, hpk]
    · have hpk : _get_version_pkginfo (some lines) =
          some (String.mk (pyStrip (afterColon line.data)),
            [natOfDigits g.g1, natOfDigits g.g2, natOfDigits g.g3,
             (g.g4.map natOfDigits).getD OFFICIAL_BUILD]) := by
        simp [_get_version_pkginfo, hf]
      have hval : get_version (some lines) env =
          (String.mk (pyStrip (afterColon line.data)),
            [natOfDigits g.g1, natOfDigits g.g2, natOfDigits g.g3,
             (g.g4.map natOfDigits).getD OFFICIAL_BUILD]) := by
        simp [get_version, hpk]
      rw [hval]
      simp only [List.getD_cons_succ, List.getD_cons_zero]
      constructor
      · intro hb
        refine Or.inl ⟨lines, line, g, rfl, hf, ?_⟩
        rcases hg4 : g.g4 with _ | ds
        · exact Or.inl rfl
        · refine Or.inr ⟨ds, rfl, ?_⟩
          rw [hg4] at hb
          simpa using hb
      · intro hb
        rcases hb with ⟨lines', line', g', hl, hm, hcond⟩ | ⟨hnone, _⟩
        · obtain rfl : lines = lines' := Option.some_inj.mp hl
          rw [hf] at hm
          have h1 := Option.some_inj.mp hm
          obtain ⟨rfl, rfl⟩ : line = line' ∧ g = g' :=
            ⟨congrArg Prod.fst h1, congrArg Prod.snd h1⟩
          rcases hcond with hg4 | ⟨ds, hg4, h9⟩
          · rw [hg4]
            rfl
          · rw [hg4]
            simpa using h9
        · rw [hpk] at hnone
          exact absurd hnone (by simp)

/-- C9: the directory-name filter of `add_to_path` has no effect (the
rebinding of the loop-local list does not prune the walk), so the first
directory anywhere in the walk containing one of the module files is
prepended and the scan returns normally — here even though no directory in
the tree has a name ending with the interpreter suffix `-2.7`, where the
claim requires the process to abort. -/
theorem add_to_path_ignores_version_filter :
    add_to_path ["pyodbcconf.so"] "-2.7"
      [⟨["build"], ["temp"], []⟩, ⟨["build", "temp"], [], ["pyodbcconf.so"]⟩] [["site"]] =
      Except.ok [["build", "temp"], ["site"]] ∧
    ([⟨["build"], ["temp"], []⟩,
      ⟨["build", "temp"], [], ["pyodbcconf.so"]⟩] : List WalkEntry).all
      (fun e => !strEndsWith (e.top.getLastD "") "-2.7") = true :=
  ⟨rfl, by decide⟩

/-! ## Flag-consumption frame properties -/

theorem tryRemoveFlag_sublist (flag : String) (d : String × Nat)
    (st : List String × List (String × Nat)) :
    List.Sublist (tryRemoveFlag flag d st).1 st.1 := by
  unfold tryRemoveFlag
  split
  · exact List.erase_sublist _ _
  · exact List.Sublist.refl _

theorem tryRemoveFlag_count_self (flag : String) (d : String × Nat)
    (st : List String × List (String × Nat)) :
    (tryRemoveFlag flag d st).1.count flag =
      st.1.count flag - (if flag ∈ st.1 then 1 else 0) := by
  unfold tryRemoveFlag
  by_cases h : flag ∈ st.1
  · simp [h, List.count_erase_self]
  · simp [h]

theorem tryRemoveFlag_count_ne (flag : String) (d : String × Nat)
    (st : List String × List (String × Nat)) (s : String) (h : s ≠ flag) :
    (tryRemoveFlag flag d st).1.count s = st.1.count s := by
  unfold tryRemoveFlag
  by_cases hm : flag ∈ st.1
  · simp [hm, List.count_erase_of_ne h]
  · simp [hm]

theorem tryRemoveFlag_mem_ne (flag : String) (d : String × Nat)
    (st : List String × List (String × Nat)) (s : String) (h : s ≠ flag) :
    (s ∈ (tryRemoveFlag flag d st).1) ↔ s ∈ st.1 := by
  unfold tryRemoveFlag
  by_cases hm : flag ∈ st.1
  · simp [hm, List.mem_erase_of_ne h]
  · simp [hm]

theorem tryRemoveFlag_snd (flag : String) (d : String × Nat)
    (st : List String × List (String × Nat)) :
    (tryRemoveFlag flag d st).2 = st.2 ++ (if flag ∈ st.1 then [d] else []) := by
  unfold tryRemoveFlag
  by_cases hm : flag ∈ st.1 <;> simp [hm]

/-- The loop over the three options is the composition of the three
single-flag steps. -/
theorem get_compiler_settings_flags_eq (argv : List String)
    (defines : List (String × Nat)) :
    get_compiler_settings_flags argv defines =
      tryRemoveFlag "--leak-check" (defineName "leak-check", 1)
        (tryRemoveFlag "--trace" (defineName "trace", 1)
          (tryRemoveFlag "--assert" (defineName "assert", 1) (argv, defines))) := rfl

/-- C10: each call removes at most one (the first) occurrence of each of
`--assert`, `--trace`, `--leak-check` from the argument list and appends
exactly one preprocessor definition per removed flag; the surviving entries
keep their relative order (the result is a sublist), every string other
than the three flags keeps its multiplicity, and a flag occurring twice
keeps its second occurrence (its count drops by exactly one). -/
theorem flag_consumption_effects (argv : List String) (defines : List (String × Nat)) :
    List.Sublist (get_compiler_settings_flags argv defines).1 argv ∧
    ((get_compiler_settings_flags argv defines).1.count "--assert" =
      argv.count "--assert" - (if "--assert" ∈ argv then 1 else 0)) ∧
    ((get_compiler_settings_flags argv defines).1.count "--trace" =
      argv.count "--trace" - (if "--trace" ∈ argv then 1 else 0)) ∧
    ((get_compiler_settings_flags argv defines).1.count "--leak-check" =
      argv.count "--leak-check" - (if "--leak-check" ∈ argv then 1 else 0)) ∧
    (∀ s : String, s ≠ "--assert" → s ≠ "--trace" → s ≠ "--leak-check" →
      (get_compiler_settings_flags argv defines).1.count s = argv.count s) ∧
    ((get_compiler_settings_flags argv defines).2 =
      defines ++ (if "--assert" ∈ argv then [("PYODBC_ASSERT", 1)] else []) ++
        (if "--trace" ∈ argv then [("PYODBC_TRACE", 1)] else []) ++
        (if "--leak-check" ∈ argv then [("PYODBC_LEAK_CHECK", 1)] else [])) := by
  simp only [get_compiler_settings_flags_eq]
  refine ⟨?_, ?_, ?_, ?_, ?_, ?_⟩
  · exact (tryRemoveFlag_sublist _ _ _).trans
      ((tryRemoveFlag_sublist _ _ _).trans (tryRemoveFlag_sublist _ _ _))
  · rw [tryRemoveFlag_count_ne _ _ _ _ (by decide),
        tryRemoveFlag_count_ne _ _ _ _ (by decide),
        tryRemoveFlag_count_self]
  · rw [tryRemoveFlag_count_ne _ _ _ _ (by decide),
        tryRemoveFlag_count_self,
        tryRemoveFlag_count_ne _ _ _ _ (by decide)]
    simp [tryRemoveFlag_mem_ne _ _ _ _
      (show ("--trace" : String) ≠ "--assert" by decide)]
  · rw [tryRemoveFlag_count_self,
        tryRemoveFlag_count_ne _ _ _ _ (by decide),
        tryRemoveFlag_count_ne _ _ _ _ (by decide)]
    simp [tryRemoveFlag_mem_ne _ _ _ _
        (show ("--leak-check" : String) ≠ "--trace" by decide),
      tryRemoveFlag_mem_ne _ _ _ _
        (show ("--leak-check" : String) ≠ "--assert" by decide)]
  · intro s hA hT hL
    rw [tryRemoveFlag_count_ne _ _ _ _ hL, tryRemoveFlag_count_ne _ _ _ _ hT,
        tryRemoveFlag_count_ne _ _ _ _ hA]
  · rw [tryRemoveFlag_snd, tryRemoveFlag_snd, tryRemoveFlag_snd]
    simp [tryRemoveFlag_mem_ne _ _ _ _
        (show ("--leak-check" : String) ≠ "--trace" by decide),
      tryRemoveFlag_mem_ne _ _ _ _
        (show ("--leak-check" : String) ≠ "--assert" by decide),
      tryRemoveFlag_mem_ne _ _ _ _
        (show ("--trace" : String) ≠ "--assert" by decide),
      show defineName "assert" = "PYODBC_ASSERT" from by decide,
      show defineName "trace" = "PYODBC_TRACE" from by decide,
      show defineName "leak-check" = "PYODBC_LEAK_CHECK" from by decide]

/-- C10 (witness): a duplicated `--assert` keeps its second occurrence, and
the unrelated entry `x` keeps its multiplicity. -/
theorem flag_consumption_effects_witness :
    (get_compiler_settings_flags ["--assert", "x", "--assert", "--leak-check"] []).1.count
        "--assert" =
      (["--assert", "x", "--assert", "--leak-check"] : List String).count "--assert" -
        (if "--assert" ∈ (["--assert", "x", "--assert", "--leak-check"] : List String)
          then 1 else 0) ∧
    (get_compiler_settings_flags ["--assert", "x", "--assert", "--leak-check"] []).1.count
        "x" =
      (["--assert", "x", "--assert", "--leak-check"] : List String).count "x" :=
  ⟨(flag_consumption_effects _ _).2.1,
   (flag_consumption_effects _ _).2.2.2.2.1 "x" (by decide) (by decide) (by decide)⟩
